import Mathlib

/-!
# Verification model of the mood.ai audio worker

A shallow embedding of the job-processing worker of this repository
(`model/services/worker.py` class AudioMoodWorker, and `model/emotions.py`).

External collaborators (the Supabase client, librosa, the two neural models)
appear as explicit environment records of oracle functions: each fallible
external call is a field returning `Except`/`Option`, so the Python
control flow (try/raise/except/early return) is translated into explicit
`Except`-shaped case analysis.  Money quantities such as scores are
modelled as rationals.  All definitions are executable.
-/

/-! ## `model/emotions.py` -/

/-- `RAVDESS_EMOTIONS` (`emotions.py`, lines 7-16). -/
def RAVDESS_EMOTIONS : List String :=
  ["neutral", "calm", "happy", "sad", "angry", "fearful", "surprise", "disgust"]

/-- `EMOTIONS = RAVDESS_EMOTIONS` (`emotions.py`, line 19). -/
def EMOTIONS : List String := RAVDESS_EMOTIONS

/-- `EMOTION_TO_IDX = {emotion: idx for idx, emotion in enumerate(EMOTIONS)}`
(`emotions.py`, line 21), as an association list in enumeration order. -/
def EMOTION_TO_IDX : List (String × Nat) :=
  EMOTIONS.enum.map (fun p => (p.2, p.1))

/-- `IDX_TO_EMOTION = {idx: emotion for emotion, idx in EMOTION_TO_IDX.items()}`
(`emotions.py`, line 22). -/
def IDX_TO_EMOTION : List (Nat × String) :=
  EMOTION_TO_IDX.map (fun p => (p.2, p.1))

/-- `get_emotion_by_index(idx) = IDX_TO_EMOTION.get(idx, "unknown")`
(`emotions.py`, lines 24-26).  The Python argument is an `int`, so the key
lookup compares the integer argument against the natural-number keys. -/
def get_emotion_by_index (idx : Int) : String :=
  match IDX_TO_EMOTION.find? (fun p => ((p.1 : Int) == idx)) with
  | some p => p.2
  | none => "unknown"

/-- Python's `str.lower()` on the ASCII alphabet (the emotion labels are
all ASCII), character by character. -/
def strLower (s : String) : String :=
  ⟨s.data.map Char.toLower⟩

/-- `get_index_by_emotion(emotion) = EMOTION_TO_IDX.get(emotion.lower(), -1)`
(`emotions.py`, lines 28-30). -/
def get_index_by_emotion (emotion : String) : Int :=
  match EMOTION_TO_IDX.find? (fun p => (p.1 == strLower emotion)) with
  | some p => (p.2 : Int)
  | none => -1

/-- `get_num_emotions()` (`emotions.py`, lines 32-34). -/
def get_num_emotions : Nat := EMOTIONS.length

/-! ## Classifier result shapes (`worker.py`) -/

/-- One entry of `top_classes`: `{"class": ..., "score": ...}`
(`worker.py`, lines 348-351).  The JSON key `class` is a Lean keyword, so
the field is called `className`. -/
structure TopClass where
  className : String
  score : ℚ
deriving DecidableEq

/-- The dictionary returned by `_run_yamnet` (`worker.py`, lines 355-359
and 363-367): keys `sound_classification`, `top_classes`, `confidence`. -/
structure YamnetResults where
  sound_classification : String
  top_classes : List TopClass
  confidence : ℚ
deriving DecidableEq

/-- The dictionary returned by `_run_emotion_detection`
(`worker.py`, lines 400-403): keys `emotion`, `emotion_score`. -/
structure EmotionResults where
  emotion : String
  emotion_score : ℚ
deriving DecidableEq

/-- The fused payload built by `_combine_results` (`worker.py`,
lines 422-428): exactly the five keys `sound_classification`,
`yamnet_top_classes`, `yamnet_confidence`, `emotion`, `emotion_score`. -/
structure MoodAnalysis where
  sound_classification : String
  yamnet_top_classes : List TopClass
  yamnet_confidence : ℚ
  emotion : String
  emotion_score : ℚ
deriving DecidableEq

/-- `_combine_results` (`worker.py`, lines 410-428).  In the source the two
arguments are the dictionaries produced by `_run_yamnet` and
`_run_emotion_detection`, which always carry all their keys, so the
`.get` defaults of the source never fire; the structure types record
exactly those shapes. -/
def combine_results (yamnet_results : YamnetResults)
    (emotion_results : EmotionResults) : MoodAnalysis :=
  { sound_classification := yamnet_results.sound_classification
    yamnet_top_classes := yamnet_results.top_classes
    yamnet_confidence := yamnet_results.confidence
    emotion := emotion_results.emotion
    emotion_score := emotion_results.emotion_score }

/-! ## String helpers mirroring Python's `str.split`, `in`, `str.join`

The file embeds Python string operations as structurally recursive
functions on `List Char`, so that every definition evaluates inside the
kernel on concrete inputs. -/

/-- Python's `sep in s` substring test. -/
def containsSeq (sep : List Char) : List Char → Bool
  | [] => sep.isEmpty
  | x :: xs => sep.isPrefixOf (x :: xs) || containsSeq sep xs

/-- Python's `s.split(sep)` for a non-empty separator, with a fuel
argument (structural recursion on the fuel; `l.length + 1` steps always
suffice because each step consumes at least one character). -/
def pySplitGo (sep : List Char) : Nat → List Char → List Char → List (List Char)
  | 0, acc, rest => [acc.reverse ++ rest]
  | _ + 1, acc, [] => [acc.reverse]
  | fuel + 1, acc, x :: xs =>
    if ¬sep.isEmpty ∧ sep.isPrefixOf (x :: xs) then
      acc.reverse :: pySplitGo sep fuel [] ((x :: xs).drop sep.length)
    else
      pySplitGo sep fuel (x :: acc) xs

/-- Python's `s.split(sep)`. -/
def pySplit (sep l : List Char) : List (List Char) :=
  pySplitGo sep (l.length + 1) [] l

/-- Python's `sep.join(parts)`. -/
def pyJoin (sep : List Char) : List (List Char) → List Char
  | [] => []
  | [p] => p
  | p :: ps => p ++ sep ++ pyJoin sep ps

/-! ## Audio acquisition (`worker.py`, lines 176-277)

The storage client and the audio decoder are external collaborators; they
appear as oracle fields of `DownloadEnv`.  Each acquisition function
additionally reports, next to the source function's return value, the
suffix of a temporary file it left on disk (if any) and the list of
retrieval strategies it attempted, so that the cleanup and
strategy-order claims can be stated. -/

/-- A retrieval strategy of the acquirer (spec section 4.3). -/
inductive Strategy
  | signedUrl
  | direct
deriving DecidableEq

/-- Oracles for the external calls of the acquisition routines. -/
structure DownloadEnv where
  /-- `self.supabase.storage.from(bucket).download(file_path)`
  (`worker.py`, line 252): raw bytes, or a raised error. -/
  storageDownload : String → String → Except String (List Nat)
  /-- `librosa.load(tmp_path, sr=16000, duration=30)` (`worker.py`,
  line 268) applied to the bytes written to the temporary file, the
  requested sample rate and the duration cap: `(audio_data, sample_rate)`,
  or a raised decode error. -/
  load : List Nat → Nat → Nat → Except String (List ℚ × Nat)
  /-- The storage client's signed-URL minting capability.  The reachable
  code of `_download_audio_with_signed_url` never invokes it: line 211
  returns `_download_audio_direct(...)`, and the signed-URL block at
  lines 213-233 below that `return` is dead code (it even reads a
  variable `signed_url` that is never assigned). -/
  createSignedUrl : String → String → Except String String

/-- The file-extension computation shared by the download routines
(`worker.py`, lines 257-260):
`file_path.split('.')[-1].lower() if '.' in file_path else 'wav'`,
then whitelisted to `wav/mp3/m4a/ogg/webm` with fallback `'wav'`. -/
def fileExt (file_path : String) : String :=
  let ext :=
    if containsSeq ['.'] file_path.data then
      strLower (String.mk ((pySplit ['.'] file_path.data).getLastD []))
    else "wav"
  if ext ∈ ["wav", "mp3", "m4a", "ogg", "webm"] then ext else "wav"

/-- `_download_audio_direct` (`worker.py`, lines 239-277).  First
component: the source's return value (`(audio_data, sample_rate)` or
`None, None`).  Second component: the suffix of a temporary file left on
disk when the routine returns, if any — the source creates
`tempfile.NamedTemporaryFile(delete=False, suffix='.ext')` after a
non-empty byte fetch and calls `os.unlink(tmp_path)` only on the path
where `librosa.load` succeeded; when the decode raises, the `except`
clause returns `(None, None)` without unlinking. -/
def download_audio_direct (env : DownloadEnv) (bucket file_path : String) :
    Option (List ℚ × Nat) × Option String :=
  match env.storageDownload bucket file_path with
  | .error _ => (none, none)
  | .ok file_response =>
    -- `if not file_response: return None, None` (empty bytes are falsy)
    if file_response.isEmpty then (none, none)
    else
      let file_ext := fileExt file_path
      -- the temporary file with suffix `.file_ext` exists from here on
      match env.load file_response 16000 30 with
      | .ok (audio_data, sample_rate) =>
        -- `os.unlink(tmp_path)` then `return audio_data, sample_rate`
        (some (audio_data, sample_rate), none)
      | .error _ =>
        -- decode raised: caught by `except`, the temp file is never unlinked
        (none, some file_ext)

/-- `_download_audio_with_signed_url` (`worker.py`, lines 176-237).
Components: the source's return value, the leaked-temp-file suffix (from
the delegated direct download), and the list of retrieval strategies the
routine attempted.  Despite its name and docstring, the reachable code
parses the bucket and path out of a public URL (if the argument embeds
one) and then unconditionally returns `_download_audio_direct(bucket,
file_path)` (line 211); the signed-URL fetch at lines 213-233 is
unreachable dead code, so `Strategy.signedUrl` never enters the trace. -/
def download_audio_with_signed_url (env : DownloadEnv)
    (file_path_or_url : String) :
    Option (List ℚ × Nat) × Option String × List Strategy :=
  let sep := "/storage/v1/object/public/"
  let bucket := "audio_files"
  if containsSeq sep.data file_path_or_url.data then
    let parts := pySplit sep.data file_path_or_url.data
    if parts.length = 2 then
      let bucket_and_path := parts.getD 1 []
      let comps := pySplit ['/'] bucket_and_path
      let bucket := String.mk (comps.headD [])
      let file_path := String.mk (pyJoin ['/'] (comps.drop 1))
      let r := download_audio_direct env bucket file_path
      (r.1, r.2, [Strategy.direct])
    else
      -- `len(parts) != 2`: `return None, None` with no fetch attempted
      (none, none, [])
  else
    let file_path := file_path_or_url
    let r := download_audio_direct env bucket file_path
    (r.1, r.2, [Strategy.direct])

/-! ## Classification steps (`worker.py`, lines 321-407) -/

/-- Oracles for the external calls of `_run_yamnet`. -/
structure YamnetEnv where
  /-- `librosa.resample(audio_data, orig_sr=..., target_sr=...)`
  (`worker.py`, line 335). -/
  resample : List ℚ → Nat → Nat → List ℚ
  /-- `self.yamnet_model(audio_data)` (`worker.py`, line 340): the
  per-frame score matrix (one row per audio frame, one column per
  class), or a raised model error. -/
  model : List ℚ → Except String (List (List ℚ))
  /-- `self.yamnet_class_names`. -/
  classNames : List String

/-- `np.mean(scores, axis=0)` at class index `j`. -/
def scoresMeanAt (frames : List (List ℚ)) (j : Nat) : ℚ :=
  ((frames.map (fun f => f.getD j 0)).sum) / (frames.length : ℚ)

/-- Insert an index into a list of indices ordered by strictly
descending score, ties broken towards the larger index — the order
produced by `np.argsort(scores_mean)[::-1]` (a reversed stable
ascending argsort). -/
def insertByScore (scores : List ℚ) (i : Nat) : List Nat → List Nat
  | [] => [i]
  | j :: js =>
    if scores.getD i 0 > scores.getD j 0 ∨
        (scores.getD i 0 = scores.getD j 0 ∧ i > j) then
      i :: j :: js
    else
      j :: insertByScore scores i js

/-- `np.argsort(scores_mean)[::-1][:k]` (`worker.py`, line 343). -/
def topIndices (scores : List ℚ) (k : Nat) : List Nat :=
  ((List.range scores.length).foldr (insertByScore scores) []).take k

/-- `_run_yamnet` (`worker.py`, lines 321-367).  The whole body sits in a
`try/except`; if the model call raises, the `except` clause returns the
default dictionary (`"Unknown"`, empty class list, confidence `0.0`)
instead of re-raising — a sound-classifier failure is swallowed here,
not propagated. -/
def run_yamnet (env : YamnetEnv) (audio_data : List ℚ) (sample_rate : Nat) :
    YamnetResults :=
  let audio :=
    if sample_rate ≠ 16000 then env.resample audio_data sample_rate 16000
    else audio_data
  match env.model audio with
  | .error _ =>
    { sound_classification := "Unknown", top_classes := [], confidence := 0 }
  | .ok scores =>
    let scores_mean := (List.range ((scores.headD []).length)).map (scoresMeanAt scores)
    let top_indices := topIndices scores_mean 5
    let top_classes : List TopClass := top_indices.map (fun idx =>
      { className :=
          if idx < env.classNames.length then env.classNames.getD idx ""
          else "Class_" ++ toString idx
        score := scores_mean.getD idx 0 })
    { sound_classification :=
        ((top_classes.head?).map (fun c => c.className)).getD "Unknown"
      top_classes := top_classes
      confidence := ((top_classes.head?).map (fun c => c.score)).getD 0 }

/-- Oracles for the external calls of `_run_emotion_detection`. -/
structure EmotionEnv where
  /-- whether `self.emotion_classifier` was initialized (`worker.py`,
  lines 50-59 set it to `None` when the model fails to load). -/
  classifierLoaded : Bool
  /-- `self.emotion_classifier(tmp_path)` (`worker.py`, line 388): the
  ranked label/score list, or a raised classifier error. -/
  classify : Except String (List (String × ℚ))

/-- `_run_emotion_detection` (`worker.py`, lines 369-407).  Its `except`
clause ends in a bare `raise`, so every failure — including the
uninitialized-classifier guard at line 381 — propagates to the caller. -/
def run_emotion_detection (env : EmotionEnv) : Except String EmotionResults :=
  if env.classifierLoaded = false then
    .error "Emotion classifier not initialized"
  else
    match env.classify with
    | .error e => .error e
    | .ok results =>
      match results.head? with
      | some top_emotion =>
        .ok { emotion := top_emotion.1, emotion_score := top_emotion.2 }
      | none => .ok { emotion := "neutral", emotion_score := 1/2 }

/-! ## Job store model (spec sections 3 and 6) -/

/-- Job lifecycle status. -/
inductive Status
  | queued
  | processing
  | completed
  | failed
deriving DecidableEq

/-- An `uploads` row as read through the join (`worker.py`, line 102). -/
structure Upload where
  id : String
  audio_file_path : String
deriving DecidableEq

/-- A `jobs` row; timestamps are modelled as set/unset flags. -/
structure JobRow where
  user_id_sha256 : String
  status : Status
  error : Option String
  started_at : Bool
  finished_at : Bool
  uploads : Option Upload
deriving DecidableEq

/-- A `predictions` row (`worker.py`, lines 142-149). -/
structure Prediction where
  user_id_sha256 : String
  upload_id : String
  scores : MoodAnalysis
  model_version : String
  inference_time : ℚ
  model_name : String
deriving DecidableEq

/-- The rows of the job store touched by one `process_job(job_id)` call:
the `jobs` row with that id (with its joined `uploads` record), plus the
`predictions` table. -/
structure Store where
  job : Option JobRow
  predictions : List Prediction
deriving DecidableEq

/-- `supabase.table("jobs").update(...).eq("id", job_id).execute()`:
applies the update to the row with that id when it exists; when no such
row exists the update touches no rows. -/
def Store.updateJob (s : Store) (f : JobRow → JobRow) : Store :=
  { s with job := s.job.map f }

/-! ## `process_job` (`worker.py`, lines 90-174) -/

/-- Per-call oracle environment for `process_job`: which fallible
external calls of the `try` body raise, and the oracles of the
sub-routines. -/
structure ProcEnv where
  /-- the initial `jobs` select (`worker.py`, line 102) raising. -/
  fetchRaises : Bool
  /-- the processing-status update (`worker.py`, lines 113-116)
  raising. -/
  claimRaises : Bool
  denv : DownloadEnv
  yenv : YamnetEnv
  eenv : EmotionEnv
  /-- the `predictions` insert (`worker.py`, line 151) raising. -/
  insertRaises : Bool
  /-- the completed-status update (`worker.py`, line 155) raising. -/
  completeRaises : Bool

/-- The dictionary returned by `process_job`: `{"success", "error"}` on
failure, `{"success", "job_id", "prediction"}` on success. -/
structure ProcResult where
  success : Bool
  error : Option String
  job_id : Option String
  prediction : Option MoodAnalysis
deriving DecidableEq

/-- How the `try` body of `process_job` ends: an early `return`
(lines 105 and 111), a normal `return` (lines 159-163), or a raised
exception. -/
inductive BodyOut
  | ret (r : ProcResult)
  | ok (r : ProcResult)
  | raised (msg : String)
deriving DecidableEq

/-- The `try` body of `process_job` (`worker.py`, lines 100-163),
threading the store through each write. -/
def processBody (env : ProcEnv) (job_id : String) (s : Store) :
    Store × BodyOut :=
  if env.fetchRaises then (s, .raised "job fetch failed") else
  match s.job with
  | none =>
    (s, .ret { success := false, error := some "Job not found",
               job_id := none, prediction := none })
  | some job =>
    match job.uploads with
    | none =>
      (s, .ret { success := false, error := some "Upload not found",
                 job_id := none, prediction := none })
    | some upload =>
      if env.claimRaises then (s, .raised "claim update failed") else
      let s1 := s.updateJob (fun j =>
        { j with status := .processing, started_at := true })
      match (download_audio_with_signed_url env.denv upload.audio_file_path).1 with
      | none => (s1, .raised "Failed to download or load audio file")
      | some (audio_data, sample_rate) =>
        let yamnet_results := run_yamnet env.yenv audio_data sample_rate
        match run_emotion_detection env.eenv with
        | .error e => (s1, .raised e)
        | .ok emotion_results =>
          let mood_analysis := combine_results yamnet_results emotion_results
          if env.insertRaises then (s1, .raised "prediction insert failed") else
          let s2 := { s1 with predictions := s1.predictions ++
            [{ user_id_sha256 := job.user_id_sha256
               upload_id := upload.id
               scores := mood_analysis
               model_version := "1.0.0"
               inference_time := 2
               model_name := "yamnet-wav2vec2-emotion" }] }
          if env.completeRaises then (s2, .raised "completed update failed") else
          let s3 := s2.updateJob (fun j =>
            { j with status := .completed, finished_at := true })
          (s3, .ok { success := true, error := none,
                     job_id := some job_id, prediction := some mood_analysis })

/-- `process_job` (`worker.py`, lines 90-174): runs the `try` body; an
early `return` passes through unchanged; a raised exception is caught by
the top-level `except`, which updates the job to `failed` with the error
message and a finish timestamp and returns
`{"success": False, "error": str(e)}`. -/
def process_job (env : ProcEnv) (job_id : String) (s : Store) :
    Store × ProcResult :=
  match processBody env job_id s with
  | (s1, .ret r) => (s1, r)
  | (s1, .ok r) => (s1, r)
  | (s1, .raised e) =>
    (s1.updateJob (fun j =>
       { j with status := .failed, error := some e, finished_at := true }),
     { success := false, error := some e, job_id := none, prediction := none })

/-- The claim step executed: the fetch succeeded, the job and its upload
both resolved, and the processing-status update (`worker.py`,
lines 113-116) went through. -/
def claimedJob (env : ProcEnv) (s : Store) : Bool :=
  !env.fetchRaises && !env.claimRaises &&
    (s.job.bind (fun j => j.uploads)).isSome

/-- The error message of the exception raised inside the `try` body of
`process_job`, when one is raised. -/
def pipelineError (env : ProcEnv) (job_id : String) (s : Store) :
    Option String :=
  match processBody env job_id s with
  | (_, .raised e) => some e
  | _ => none

/-! ## Concrete acquisition environments used by witnesses -/

/-- An environment in which every external call succeeds. -/
def okDownloadEnv : DownloadEnv where
  storageDownload := fun _ _ => .ok [82, 73, 70, 70]
  load := fun _ sr _ => .ok ([0, 1/2], sr)
  createSignedUrl := fun _ _ => .ok "https://signed.example/clip.wav"

/-- An environment in which the byte fetch succeeds but the decode
raises (corrupt audio). -/
def leakDownloadEnv : DownloadEnv :=
  { okDownloadEnv with load := fun _ _ _ => .error "NoBackendError" }

/-- An environment whose decoder returns an empty waveform at the
requested sample rate (it satisfies the librosa contract for every
requested rate and cap). -/
def capDownloadEnv : DownloadEnv :=
  { okDownloadEnv with load := fun _ sr _ => .ok ([], sr) }

/-- A sound-classifier environment in which every external call
succeeds: a single score frame over two classes. -/
def okYamnetEnv : YamnetEnv where
  resample := fun a _ _ => a
  model := fun _ => .ok [[9/10, 1/20]]
  classNames := ["Speech", "Music"]

/-- An emotion-classifier environment in which the classifier returns a
single ranked result (an integral score, so that every comparison on it
kernel-reduces). -/
def okEmotionEnv : EmotionEnv where
  classifierLoaded := true
  classify := .ok [("happy", 1)]

/-- A processing environment in which every external call succeeds. -/
def okProcEnv : ProcEnv where
  fetchRaises := false
  claimRaises := false
  denv := okDownloadEnv
  yenv := okYamnetEnv
  eenv := okEmotionEnv
  insertRaises := false
  completeRaises := false

/-- A store holding one queued job with a resolvable upload. -/
def queuedStore : Store where
  job := some
    { user_id_sha256 := "deadbeef"
      status := .queued
      error := none
      started_at := false
      finished_at := false
      uploads := some { id := "u1", audio_file_path := "user1/clip.wav" } }
  predictions := []

/-- A store in which the job id resolves to no row. -/
def emptyStore : Store where
  job := none
  predictions := []

/-- A store holding a job whose upload does not resolve. -/
def noUploadStore : Store where
  job := some
    { user_id_sha256 := "deadbeef"
      status := .queued
      error := none
      started_at := false
      finished_at := false
      uploads := none }
  predictions := []

/-- A processing environment in which both byte-fetch strategies fail,
so audio acquisition returns `None`. -/
def dlFailProcEnv : ProcEnv :=
  { okProcEnv with
    denv := { okDownloadEnv with
              storageDownload := fun _ _ => .error "object not found" } }

/-- A processing environment in which the sound-classifier model call
raises and everything else succeeds. -/
def yamnetFailProcEnv : ProcEnv :=
  { okProcEnv with
    yenv := { okYamnetEnv with model := fun _ => .error "model failure" } }

/-- A processing environment in which the emotion classifier raises and
everything else succeeds. -/
def emotionFailProcEnv : ProcEnv :=
  { okProcEnv with
    eenv := { classifierLoaded := true, classify := .error "cuda error" } }

/-! ## The scheduler loop `run` (`worker.py`, lines 430-465) -/

/-- How one iteration of the `while True` loop ends: `stopped` when a
`KeyboardInterrupt` breaks the loop, `slept` when the iteration ends in
`time.sleep(poll_interval)` (no queued job, or a caught exception),
`processed` when a fetched job was handed to `process_job` (no sleep). -/
inductive CycleOutcome
  | stopped
  | slept
  | processed
deriving DecidableEq

/-- Oracles for one iteration of the scheduler loop. -/
structure CycleEnv where
  /-- a `KeyboardInterrupt` delivered during this iteration. -/
  interrupt : Bool
  /-- the queued-jobs select (`worker.py`, lines 442-444): the ids of
  the rows with `status = "queued"` (under `limit(1)`), or a raised
  error. -/
  fetchQueued : Except String (List String)
  /-- the oracles consumed by `process_job` when a job is handed over. -/
  penv : ProcEnv

/-- One iteration of the `while True` body (`worker.py`, lines 439-465):
`except KeyboardInterrupt` breaks the loop; any other escaping exception
is caught, logged and followed by the sleep; an empty poll result sleeps;
a fetched job id is handed to `process_job`, whose result dictionary is
only logged. -/
def runCycle (env : CycleEnv) (s : Store) : Store × CycleOutcome :=
  if env.interrupt then (s, .stopped)
  else
    match env.fetchQueued with
    | .error _ => (s, .slept)
    | .ok jobs =>
      match jobs.head? with
      | none => (s, .slept)
      | some job_id => ((process_job env.penv job_id s).1, .processed)

/-- The unbounded `while True` loop observed against a finite schedule
of per-iteration oracle environments: returns the final store and
whether the loop terminated before exhausting the schedule. -/
def runLoop : List CycleEnv → Store → Store × Bool
  | [], s => (s, false)
  | env :: rest, s =>
    match runCycle env s with
    | (s1, .stopped) => (s1, true)
    | (s1, _) => runLoop rest s1

/-- A cycle environment delivering a `KeyboardInterrupt`. -/
def stopCycleEnv : CycleEnv where
  interrupt := true
  fetchQueued := .ok []
  penv := okProcEnv

/-- A cycle environment with an empty poll result. -/
def idleCycleEnv : CycleEnv where
  interrupt := false
  fetchQueued := .ok []
  penv := okProcEnv

/-- A cycle environment whose poll raises. -/
def crashCycleEnv : CycleEnv where
  interrupt := false
  fetchQueued := .error "network down"
  penv := okProcEnv

/-! ## Claim theorems -/

/-- C1: every job that `process_job` claims (transitions to
`processing`) ends, when `process_job` returns, in exactly one of the
two terminal states — `completed` or `failed` — and is never left
`queued` or `processing` after a handled exception: the success path
sets `completed`, and every raised exception reaches the `except`
clause, which sets `failed`. -/
theorem C1_claimed_job_ends_terminal (env : ProcEnv) (job_id : String)
    (s : Store) (h : claimedJob env s = true) :
    ∃ j, (process_job env job_id s).1.job = some j ∧
      ((j.status = Status.completed ∧ j.status ≠ Status.failed) ∨
       (j.status = Status.failed ∧ j.status ≠ Status.completed)) := by
  simp only [claimedJob, Bool.and_eq_true, Bool.not_eq_true'] at h
  obtain ⟨⟨hf, hc⟩, hup⟩ := h
  rw [Option.isSome_iff_exists] at hup
  obtain ⟨u, hu⟩ := hup
  rw [Option.bind_eq_some] at hu
  obtain ⟨job, hjob, hupl⟩ := hu
  cases hd : (download_audio_with_signed_url env.denv u.audio_file_path).1 with
  | none =>
    simp [process_job, processBody, hf, hc, hjob, hupl, hd, Store.updateJob]
  | some ar =>
    obtain ⟨audio_data, sample_rate⟩ := ar
    cases he : run_emotion_detection env.eenv with
    | error e =>
      simp [process_job, processBody, hf, hc, hjob, hupl, hd, he, Store.updateJob]
    | ok em =>
      cases hi : env.insertRaises with
      | true =>
        simp [process_job, processBody, hf, hc, hjob, hupl, hd, he, hi,
          Store.updateJob]
      | false =>
        cases hcr : env.completeRaises with
        | true =>
          simp [process_job, processBody, hf, hc, hjob, hupl, hd, he, hi, hcr,
            Store.updateJob]
        | false =>
          simp [process_job, processBody, hf, hc, hjob, hupl, hd, he, hi, hcr,
            Store.updateJob]

/-- Witness for C1: a fully successful run on a claimed queued job. -/
theorem C1_witness :
    ∃ j, (process_job okProcEnv "job-1" queuedStore).1.job = some j ∧
      ((j.status = Status.completed ∧ j.status ≠ Status.failed) ∨
       (j.status = Status.failed ∧ j.status ≠ Status.completed)) :=
  C1_claimed_job_ends_terminal okProcEnv "job-1" queuedStore (by decide)

/-- C3, counterexample: a raised error of the sound classifier is not
fatal.  With the YAMNet model call raising and everything else
succeeding, the job still reaches `completed` and a Prediction is
written whose sound-side fields are the defaults (`"Unknown"`, empty
class list, confidence `0`) while the emotion side is populated — a
prediction with one classifier's output defaulted. -/
theorem C3_counterexample_yamnet_failure_not_fatal :
    (process_job yamnetFailProcEnv "job-1" queuedStore).2.success = true ∧
    ((process_job yamnetFailProcEnv "job-1" queuedStore).1.job.map
      (fun j => j.status)) = some Status.completed ∧
    ((process_job yamnetFailProcEnv "job-1" queuedStore).1.predictions.map
      (fun p => p.scores)) =
      [{ sound_classification := "Unknown", yamnet_top_classes := [],
         yamnet_confidence := 0, emotion := "happy", emotion_score := 1 }] := by
  decide

/-- C3 (amended): a raised error of the emotion classifier is fatal for
the job — it drives the `processing → failed` transition and no
Prediction row is written; a raised error of the sound classifier,
however, is caught inside `_run_yamnet` and replaced by the default
output (`"Unknown"`, empty class list, confidence `0`), and processing
continues with that defaulted output. -/
theorem C3_amended_emotion_fatal_sound_defaulted :
    (∀ (env : ProcEnv) (job_id : String) (s : Store) (e : String),
      claimedJob env s = true →
      run_emotion_detection env.eenv = .error e →
      (process_job env job_id s).1.predictions = s.predictions ∧
      (process_job env job_id s).2.success = false ∧
      ((process_job env job_id s).1.job.map (fun j => j.status)) =
        some Status.failed) ∧
    (∀ (env : YamnetEnv) (audio_data : List ℚ) (sample_rate : Nat) (m : String),
      env.model (if sample_rate ≠ 16000 then
        env.resample audio_data sample_rate 16000 else audio_data) = .error m →
      run_yamnet env audio_data sample_rate =
        { sound_classification := "Unknown", top_classes := [],
          confidence := 0 }) := by
  constructor
  · intro env job_id s e h he
    simp only [claimedJob, Bool.and_eq_true, Bool.not_eq_true'] at h
    obtain ⟨⟨hf, hc⟩, hup⟩ := h
    rw [Option.isSome_iff_exists] at hup
    obtain ⟨u, hu⟩ := hup
    rw [Option.bind_eq_some] at hu
    obtain ⟨job, hjob, hupl⟩ := hu
    cases hd : (download_audio_with_signed_url env.denv u.audio_file_path).1 with
    | none =>
      refine ⟨?_, ?_, ?_⟩ <;>
        simp [process_job, processBody, hf, hc, hjob, hupl, hd, Store.updateJob]
    | some ar =>
      obtain ⟨audio_data, sample_rate⟩ := ar
      refine ⟨?_, ?_, ?_⟩ <;>
        simp [process_job, processBody, hf, hc, hjob, hupl, hd, he,
          Store.updateJob]
  · intro env audio_data sample_rate m hm
    simp only [ne_eq, ite_not] at hm
    simp [run_yamnet, ne_eq, ite_not, hm]

/-- Witness for C3 (amended): an emotion-classifier failure on a claimed
job, and a sound-classifier failure defaulting to the fallback output. -/
theorem C3_amended_witness :
    ((process_job emotionFailProcEnv "job-1" queuedStore).1.predictions =
        queuedStore.predictions ∧
      (process_job emotionFailProcEnv "job-1" queuedStore).2.success = false ∧
      ((process_job emotionFailProcEnv "job-1" queuedStore).1.job.map
        (fun j => j.status)) = some Status.failed) ∧
    run_yamnet yamnetFailProcEnv.yenv [0, 1/2] 16000 =
      { sound_classification := "Unknown", top_classes := [],
        confidence := 0 } :=
  ⟨C3_amended_emotion_fatal_sound_defaulted.1 emotionFailProcEnv "job-1"
      queuedStore "cuda error" (by decide) rfl,
   C3_amended_emotion_fatal_sound_defaulted.2 yamnetFailProcEnv.yenv [0, 1/2]
      16000 "model failure" rfl⟩

/-- C4: every exception raised inside the `try` body of `process_job` is
caught at its top level: `process_job` then performs the
failed-transition (storing the error message and a finish timestamp on
the job row as it stood when the exception fired) and returns the
structured failure dictionary `{"success": False, "error": msg}`.  No
exception propagates to the scheduler loop — in this embedding
`process_job` is a total function into `Store × ProcResult`. -/
theorem C4_pipeline_exceptions_caught (env : ProcEnv) (job_id : String)
    (s : Store) (e : String) (h : pipelineError env job_id s = some e) :
    (process_job env job_id s).2 =
      { success := false, error := some e, job_id := none,
        prediction := none } ∧
    (process_job env job_id s).1 =
      (processBody env job_id s).1.updateJob (fun j =>
        { j with
          status := .failed
          error := some e
          finished_at := true }) := by
  unfold pipelineError at h
  unfold process_job
  cases hb : processBody env job_id s with
  | mk s1 out =>
    rw [hb] at h
    cases out with
    | ret r => simp at h
    | ok r => simp at h
    | raised msg =>
      simp only [Option.some.injEq] at h
      subst h
      exact ⟨rfl, rfl⟩

/-- Witness for C4: an acquisition failure raises inside the body and is
translated into the failed-transition and a structured error result. -/
theorem C4_witness :
    (process_job dlFailProcEnv "job-1" queuedStore).2 =
      { success := false,
        error := some "Failed to download or load audio file",
        job_id := none, prediction := none } ∧
    (process_job dlFailProcEnv "job-1" queuedStore).1 =
      (processBody dlFailProcEnv "job-1" queuedStore).1.updateJob (fun j =>
        { j with
          status := .failed
          error := some "Failed to download or load audio file"
          finished_at := true }) :=
  C4_pipeline_exceptions_caught dlFailProcEnv "job-1" queuedStore
    "Failed to download or load audio file" rfl

/-- C5: when the fetch succeeds but the job row or its upload does not
resolve, `process_job` returns early with a not-found failure result and
performs no status mutation at all — the claim step is skipped and the
store is returned unchanged. -/
theorem C5_not_found_no_mutation (env : ProcEnv) (job_id : String) (s : Store)
    (hf : env.fetchRaises = false) :
    (s.job = none →
      process_job env job_id s =
        (s, { success := false, error := some "Job not found",
              job_id := none, prediction := none })) ∧
    (∀ job, s.job = some job → job.uploads = none →
      process_job env job_id s =
        (s, { success := false, error := some "Upload not found",
              job_id := none, prediction := none })) := by
  constructor
  · intro hj
    simp [process_job, processBody, hf, hj]
  · intro job hj hu
    simp [process_job, processBody, hf, hj, hu]

/-- Witness for C5: a missing job row and a missing upload, both with
untouched stores. -/
theorem C5_witness :
    process_job okProcEnv "job-1" emptyStore =
      (emptyStore, { success := false, error := some "Job not found",
                     job_id := none, prediction := none }) ∧
    process_job okProcEnv "job-1" noUploadStore =
      (noUploadStore, { success := false, error := some "Upload not found",
                        job_id := none, prediction := none }) :=
  ⟨(C5_not_found_no_mutation okProcEnv "job-1" emptyStore rfl).1 rfl,
   (C5_not_found_no_mutation okProcEnv "job-1" noUploadStore rfl).2 _ rfl rfl⟩

/-- C2, counterexample: acquisition does not first attempt a signed URL.
In an environment whose signed-URL minting capability succeeds, the
strategy trace of `_download_audio_with_signed_url` on a plain stored
path is `[Strategy.direct]` — its head is not the signed-URL strategy, so
the stated resolution order (signed URL first, direct fetch only as
fallback) fails at this input. -/
theorem C2_counterexample_no_signed_attempt :
    okDownloadEnv.createSignedUrl "audio_files" "user1/clip.wav" =
      .ok "https://signed.example/clip.wav" ∧
    (download_audio_with_signed_url okDownloadEnv "user1/clip.wav").2.2 =
      [Strategy.direct] ∧
    ¬((download_audio_with_signed_url okDownloadEnv "user1/clip.wav").2.2.head? =
      some Strategy.signedUrl) :=
  ⟨rfl, rfl, by decide⟩

/-- C2 (amended): for every stored-file reference, acquisition parses the
bucket and path (out of a public URL when the reference embeds one) and
performs only a direct authenticated byte-fetch; no signed-URL fetch is
ever attempted (that branch of the source is unreachable dead code).  In
particular, when the reference is a bare path, the routine returns
exactly the direct download of that path from the `audio_files` bucket. -/
theorem C2_amended_direct_fetch_only :
    (∀ (env : DownloadEnv) (p : String),
      Strategy.signedUrl ∉ (download_audio_with_signed_url env p).2.2) ∧
    (∀ (env : DownloadEnv) (p : String),
      containsSeq ("/storage/v1/object/public/").data p.data = false →
      download_audio_with_signed_url env p =
        ((download_audio_direct env "audio_files" p).1,
         (download_audio_direct env "audio_files" p).2, [Strategy.direct])) := by
  constructor
  · intro env p
    unfold download_audio_with_signed_url
    dsimp only
    split
    · split
      · simp
      · simp
    · simp
  · intro env p h
    unfold download_audio_with_signed_url
    simp [h]

/-- Witness for C2 (amended) at a concrete bare path. -/
theorem C2_amended_witness :
    download_audio_with_signed_url okDownloadEnv "user1/clip.wav" =
      ((download_audio_direct okDownloadEnv "audio_files" "user1/clip.wav").1,
       (download_audio_direct okDownloadEnv "audio_files" "user1/clip.wav").2,
       [Strategy.direct]) :=
  C2_amended_direct_fetch_only.2 okDownloadEnv "user1/clip.wav" (by decide)

/-- C7, counterexample: the temporary file is not deleted on every exit
path.  In an environment where the byte fetch succeeds but the decode
raises, `_download_audio_direct` (and hence the wrapping
`_download_audio_with_signed_url`) returns with the temporary `.wav`
file still on disk. -/
theorem C7_counterexample_leaked_tempfile :
    (download_audio_direct leakDownloadEnv "audio_files" "user1/clip.wav").2 =
      some "wav" ∧
    (download_audio_with_signed_url leakDownloadEnv "user1/clip.wav").2.1 =
      some "wav" :=
  ⟨rfl, rfl⟩

/-- C7 (amended): the temporary file is deleted before returning on the
success path (and never created when the byte fetch fails or returns
empty bytes); but on a decode failure after the bytes were written, the
temporary file is left on disk — cleanup is not performed on every exit
path. -/
theorem C7_amended_cleanup (env : DownloadEnv) (bucket file_path : String) :
    ((download_audio_direct env bucket file_path).1.isSome = true →
      (download_audio_direct env bucket file_path).2 = none) ∧
    ((download_audio_direct env bucket file_path).2.isSome = true ↔
      ∃ bytes, env.storageDownload bucket file_path = .ok bytes ∧ bytes ≠ [] ∧
        ∃ e, env.load bytes 16000 30 = .error e) := by
  cases hd : env.storageDownload bucket file_path with
  | error e => simp [download_audio_direct, hd]
  | ok bytes =>
    by_cases hb : bytes.isEmpty
    · have : bytes = [] := by simpa using hb
      simp [download_audio_direct, hd, hb, this]
    · have hbne : ¬(bytes = []) := by simpa using hb
      cases hl : env.load bytes 16000 30 with
      | ok ar =>
        obtain ⟨audio, sr⟩ := ar
        simp [download_audio_direct, hd, hb, hl, hbne]
      | error e =>
        simp [download_audio_direct, hd, hb, hl, hbne]

/-- Witness for C7 (amended): the leak case is realizable. -/
theorem C7_amended_witness :
    (download_audio_direct leakDownloadEnv "audio_files" "user1/clip.wav").2.isSome =
      true :=
  (C7_amended_cleanup leakDownloadEnv "audio_files" "user1/clip.wav").2.mpr
    ⟨[82, 73, 70, 70], rfl, by decide, "NoBackendError", rfl⟩

/-- C8: both acquisition entry points decode through the same call
`librosa.load(tmp_path, sr=16000, duration=30)`; under librosa's contract
(the returned rate is the requested one and the waveform is capped at the
requested duration), every successful acquisition returns audio at
16000 Hz whose sample count is at most `16000 * 30`. -/
theorem C8_decode_fixed_rate_and_cap (env : DownloadEnv)
    (hload : ∀ bytes sr dur audio r, env.load bytes sr dur = .ok (audio, r) →
      r = sr ∧ audio.length ≤ sr * dur) :
    (∀ bucket file_path audio sr,
      (download_audio_direct env bucket file_path).1 = some (audio, sr) →
      sr = 16000 ∧ audio.length ≤ 16000 * 30) ∧
    (∀ file_path_or_url audio sr,
      (download_audio_with_signed_url env file_path_or_url).1 = some (audio, sr) →
      sr = 16000 ∧ audio.length ≤ 16000 * 30) := by
  have hdirect : ∀ bucket file_path audio sr,
      (download_audio_direct env bucket file_path).1 = some (audio, sr) →
      sr = 16000 ∧ audio.length ≤ 16000 * 30 := by
    intro bucket file_path audio sr h
    cases hd : env.storageDownload bucket file_path with
    | error e => simp [download_audio_direct, hd] at h
    | ok bytes =>
      by_cases hb : bytes.isEmpty
      · simp [download_audio_direct, hd, hb] at h
      · cases hl : env.load bytes 16000 30 with
        | ok ar =>
          obtain ⟨a, r⟩ := ar
          simp [download_audio_direct, hd, hb, hl] at h
          obtain ⟨ha, hr⟩ := h
          obtain ⟨h1, h2⟩ := hload bytes 16000 30 a r hl
          subst ha; subst hr
          exact ⟨h1, h1 ▸ h2⟩
        | error e => simp [download_audio_direct, hd, hb, hl] at h
  refine ⟨hdirect, ?_⟩
  intro p audio sr h
  unfold download_audio_with_signed_url at h
  dsimp only at h
  split at h
  · split at h
    · exact hdirect _ _ audio sr h
    · exact absurd h (by simp)
  · exact hdirect _ _ audio sr h

/-- Witness for C8 at a concrete environment satisfying the librosa
contract. -/
theorem C8_witness :
    (download_audio_direct capDownloadEnv "audio_files" "user1/clip.wav").1 =
      some ([], 16000) ∧
    (16000 = 16000 ∧ ([] : List ℚ).length ≤ 16000 * 30) := by
  refine ⟨rfl, ?_⟩
  refine (C8_decode_fixed_rate_and_cap capDownloadEnv ?_).1
    "audio_files" "user1/clip.wav" [] 16000 rfl
  intro bytes sr dur audio r h
  simp only [capDownloadEnv, okDownloadEnv, Except.ok.injEq, Prod.mk.injEq] at h
  obtain ⟨h1, h2⟩ := h
  subst h1; subst h2
  exact ⟨rfl, by simp⟩

/-- C6: `_combine_results` is a pure deterministic function (it is a Lean
function of its two arguments, so determinism across repeated calls is by
construction); its payload has exactly the five fields
`sound_classification`, `yamnet_top_classes`, `yamnet_confidence`,
`emotion`, `emotion_score` (the fields of `MoodAnalysis`), each equal to
the corresponding classifier output passed through unmodified. -/
theorem C6_combine_results_passthrough (y : YamnetResults) (e : EmotionResults) :
    combine_results y e =
      { sound_classification := y.sound_classification
        yamnet_top_classes := y.top_classes
        yamnet_confidence := y.confidence
        emotion := e.emotion
        emotion_score := e.emotion_score } := rfl

/-- C10: for every emotion label `e` in `EMOTIONS`,
`get_emotion_by_index (get_index_by_emotion e) = e`; for every index
outside the range of `EMOTIONS`, `get_emotion_by_index` returns
`"unknown"`; and for every string whose lowercasing is not an emotion
label, `get_index_by_emotion` returns `-1`. -/
theorem C10_emotions_roundtrip :
    (∀ e ∈ EMOTIONS, get_emotion_by_index (get_index_by_emotion e) = e) ∧
    (∀ idx : Int, (idx < 0 ∨ (EMOTIONS.length : Int) ≤ idx) →
      get_emotion_by_index idx = "unknown") ∧
    (∀ s : String, strLower s ∉ EMOTIONS → get_index_by_emotion s = -1) := by
  refine ⟨by decide, ?_, ?_⟩
  · intro idx h
    have hl : ((EMOTIONS.length : Nat) : Int) = 8 := rfl
    rw [hl] at h
    cases idx with
    | ofNat n =>
      have hn : 8 ≤ n := by
        rw [Int.ofNat_eq_coe] at h
        rcases h with h | h <;> omega
      obtain ⟨m, rfl⟩ : ∃ m, n = m + 8 := ⟨n - 8, by omega⟩
      rfl
    | negSucc n => rfl
  · intro s hs
    have key : ∀ k ∈ EMOTIONS, (k == strLower s) = false := by
      intro k hk
      refine beq_eq_false_iff_ne.mpr (fun heq => hs ?_)
      exact heq ▸ hk
    have h0 := key "neutral" (by decide)
    have h1 := key "calm" (by decide)
    have h2 := key "happy" (by decide)
    have h3 := key "sad" (by decide)
    have h4 := key "angry" (by decide)
    have h5 := key "fearful" (by decide)
    have h6 := key "surprise" (by decide)
    have h7 := key "disgust" (by decide)
    have hred : EMOTION_TO_IDX =
        [("neutral", 0), ("calm", 1), ("happy", 2), ("sad", 3),
         ("angry", 4), ("fearful", 5), ("surprise", 6), ("disgust", 7)] := rfl
    simp [get_index_by_emotion, hred, List.find?, h0, h1, h2, h3, h4, h5, h6, h7]

/-- C9: the scheduler loop terminates only on an explicit interruption
signal — over every finite schedule of cycle environments, the loop
stops early exactly when some scheduled cycle delivers a
`KeyboardInterrupt`; and in an uninterrupted cycle, both a raised poll
exception and an empty poll result end the cycle in the pause
(`time.sleep`) before the next retry. -/
theorem C9_loop_runs_until_interrupt :
    (∀ (envs : List CycleEnv) (s : Store),
      (runLoop envs s).2 = envs.any (fun env => env.interrupt)) ∧
    (∀ (env : CycleEnv) (s : Store), env.interrupt = false →
      ((∃ e, env.fetchQueued = .error e) →
        (runCycle env s).2 = CycleOutcome.slept) ∧
      (env.fetchQueued = .ok [] →
        (runCycle env s).2 = CycleOutcome.slept)) := by
  constructor
  · intro envs
    induction envs with
    | nil => intro s; rfl
    | cons env rest ih =>
      intro s
      cases hi : env.interrupt with
      | true => simp [runLoop, runCycle, hi]
      | false =>
        cases hf : env.fetchQueued with
        | error e => simp [runLoop, runCycle, hi, hf, ih]
        | ok jobs =>
          cases hj : jobs.head? <;>
            simp [runLoop, runCycle, hi, hf, hj, ih]
  · intro env s hi
    constructor
    · rintro ⟨e, hf⟩
      simp [runCycle, hi, hf]
    · intro hf
      simp [runCycle, hi, hf]

/-- Witness for C9: a two-cycle uninterrupted schedule (one idle poll,
one raising poll), each cycle ending in the pause. -/
theorem C9_witness :
    (runLoop [idleCycleEnv, crashCycleEnv] emptyStore).2 =
      [idleCycleEnv, crashCycleEnv].any (fun env => env.interrupt) ∧
    (runCycle crashCycleEnv emptyStore).2 = CycleOutcome.slept ∧
    (runCycle idleCycleEnv emptyStore).2 = CycleOutcome.slept :=
  ⟨C9_loop_runs_until_interrupt.1 [idleCycleEnv, crashCycleEnv] emptyStore,
   (C9_loop_runs_until_interrupt.2 crashCycleEnv emptyStore rfl).1
     ⟨"network down", rfl⟩,
   (C9_loop_runs_until_interrupt.2 idleCycleEnv emptyStore rfl).2 rfl⟩

/-- Witness for C10 at concrete inputs. -/
theorem C10_emotions_roundtrip_witness :
    get_emotion_by_index (get_index_by_emotion "happy") = "happy" ∧
    get_emotion_by_index 99 = "unknown" ∧
    get_index_by_emotion "Excited" = -1 :=
  ⟨C10_emotions_roundtrip.1 "happy" (by decide),
   C10_emotions_roundtrip.2.1 99 (by decide),
   C10_emotions_roundtrip.2.2 "Excited" (by decide)⟩
